import Mathlib

/-!
Shallow embedding of `src/solver.py` (repository sr33j/PRBot).

The program has two parts:
* `fork_and_create_pr` - the Repository-Fix Orchestrator: fork an upstream
  repository, create an issue branch, apply a placeholder edit to `README.md`,
  and open a pull request.
* `solve_bounty` - the Issue-Poll Driver: poll an external row store, skip
  already-processed issue links (kept in a newline-delimited file), invoke the
  orchestrator for each new row.

The embedding models the remote GitHub-like state as a `World` value that the
orchestrator reads and updates; network failures that the Python code observes
as exceptions are modelled by absent entries (lookup misses) and by explicit
failure flags carried in the `World`.  Log lines (`print` calls) are collected
in output lists; exception texts interpolated into log lines are elided.
-/

/-- A leaf of the repository file tree, as seen by the directory walk in
`solve_bounty` (a PyGithub `ContentFile` of type `file`).  `content = none`
models a file whose `decoded_content.decode()` raises. -/
structure FileNode where
  path : String
  content : Option String
  sha : String
deriving DecidableEq

/-- A node of the repository file tree (`get_contents` result): either a file
or a directory with children. -/
inductive Entry where
  | file : String → Option String → String → Entry
  | dir : String → List Entry → Entry

/-- An `update_file` call recorded against the fork (path, commit message,
new content, prior sha, target branch) - solver.py lines 131-143. -/
structure UpdateOp where
  path : String
  message : String
  content : String
  sha : String
  branch : String
deriving DecidableEq

/-- A created pull request (solver.py lines 159-165). -/
structure PullRequest where
  title : String
  body : String
  head : String
  base : String
deriving DecidableEq

/-- A repository visible through the API: its `name` attribute, branch
references (name, commit sha), file tree, issues (number, title, body),
pull requests opened against it, and the `update_file` commits applied
to it. -/
structure Repo where
  name : String
  branches : List (String × Nat)
  tree : List Entry
  issues : List (Nat × String × String)
  prs : List PullRequest
  updates : List UpdateOp

/-- The state of the remote API plus the failure behaviour of the environment:
`repos` maps full names to repositories (a lookup miss models `get_repo`
raising, including the bad-credentials case, since the first API request the
script makes is the upstream `get_repo` inside a try block);
`forkProvision` is the repository that becomes visible after `create_fork`
plus the fixed wait (`none` models a fork that is still not visible, in which
case the re-fetch on line 53 raises outside any try);
`contentsError` makes the `get_contents` walk fail;
`updateFailPaths` lists paths whose `update_file` call fails;
`prCreateFails` makes `create_pull` fail. -/
structure World where
  userLogin : String
  repos : List (String × Repo)
  forkProvision : Option Repo
  contentsError : Bool
  updateFailPaths : List String
  prCreateFails : Bool

/-- First-match association lookup (used for repositories by full name,
branch references by name, and issues by number). -/
def alookup {α β : Type} [DecidableEq α] (k : α) : List (α × β) → Option β
  | [] => none
  | (k₁, v) :: ps => if k₁ = k then some v else alookup k ps

/-- Replace the value stored under key `k` (if present) by applying `f`. -/
def modifyRepo : List (String × Repo) → String → (Repo → Repo) → List (String × Repo)
  | [], _, _ => []
  | (a, v) :: ps, k, f =>
    (if a = k then (a, f v) else (a, v)) :: modifyRepo ps k f

mutual

/-- Number of nodes of a tree entry (used as loop fuel below). -/
def entryWeight : Entry → Nat
  | Entry.file _ _ _ => 1
  | Entry.dir _ ch => 1 + entriesWeight ch

/-- Total number of nodes of a list of tree entries. -/
def entriesWeight : List Entry → Nat
  | [] => 0
  | e :: es => entryWeight e + entriesWeight es

end

/-- The worklist walk over `get_contents` results (solver.py lines 96-104):
pop the front, push directory children at the back, collect files.  The
Python `while contents:` loop terminates because every iteration removes one
tree node; the fuel argument is instantiated with the total node count, which
equals the number of iterations, so the fuel is never exhausted. -/
def walkContentsFuel : Nat → List Entry → List FileNode
  | 0, _ => []
  | _ + 1, [] => []
  | fuel + 1, Entry.file p c s :: rest => ⟨p, c, s⟩ :: walkContentsFuel fuel rest
  | fuel + 1, Entry.dir _ ch :: rest => walkContentsFuel fuel (rest ++ ch)

/-- `files_to_analyze` computed from a repository tree. -/
def walkContents (tree : List Entry) : List FileNode :=
  walkContentsFuel (entriesWeight tree) tree

/-- The change-selection loop (solver.py lines 116-128): pick every file whose
path is exactly `README.md`; append the literal text to a decodable content,
fall back to the bare literal when decoding fails.  No file is created when
no `README.md` is present - the list is simply empty. -/
def computeChanges : List FileNode → List (FileNode × String)
  | [] => []
  | f :: rest =>
    if f.path = "README.md" then
      (f, match f.content with
          | some c => c ++ "\nhello"
          | none => "hello") :: computeChanges rest
    else
      computeChanges rest

/-- The commit loop (solver.py lines 131-143): one `update_file` per selected
change, message `Fix issue #<n>`, on the issue branch; a failing update is
logged and the loop continues.  Returns the successful update operations and
the log lines, in source order. -/
def commitChanges (issue_number : Nat) (branch : String) (failPaths : List String) :
    List (FileNode × String) → List UpdateOp × List String
  | [] => ([], [])
  | (f, newContent) :: rest =>
    let r := commitChanges issue_number branch failPaths rest
    if f.path ∈ failPaths then
      (r.1, ("Error updating " ++ f.path) :: r.2)
    else
      (⟨f.path, "Fix issue #" ++ toString issue_number, newContent, f.sha, branch⟩ :: r.1,
       ("Updated " ++ f.path) :: r.2)

/-- The marker token that solver.py places (between backticks) at the end of
every pull-request body. -/
def markerToken : String := "<<SOLVER:0x0543ae55a38fe8bb1041efb7f6135bb23e61d422>>"

/-- The pull-request body (solver.py lines 147-154).  In the source the token
appears inside one literal written between backticks; it is assembled here
from `markerToken` so that the token string is named once. -/
def mkPrBody (issue_number : Nat) (changes : List (FileNode × String))
    (issue_body : String) : String :=
  "This PR addresses issue #" ++ toString issue_number ++ "\n\n" ++
  "## Changes Made\n" ++
  "The following files were modified:\n" ++
  String.intercalate "\n" (changes.map (fun c => "- " ++ c.1.path)) ++
  "\n\n## Original Issue\n" ++ issue_body ++ "\n\n" ++
  "`" ++ markerToken ++ "`"

/-- Result of one orchestrator invocation.  `prCreated` carries the pull
request; the error constructors correspond to the handled failure paths
(print and `return`) of solver.py. -/
inductive OrchResult where
  | upstreamAccessError
  | branchCreateError
  | issueFetchError
  | contentsFetchError
  | prCreateError
  | prCreated : PullRequest → OrchResult
deriving DecidableEq

/-- How an orchestrator invocation comes back to the caller: a normal return
(solver.py returns `None` both on success and on every handled failure), or
an exception escaping the function (possible only where an API call sits
outside every try block: the fork re-fetch on line 53 and the upstream base
ref read on line 65). -/
inductive OrchReturn where
  | ret : OrchResult → OrchReturn
  | exn : String → OrchReturn
deriving DecidableEq

/-- Observable output of one orchestrator invocation. -/
structure OrchOut where
  ret : OrchReturn
  logs : List String
deriving DecidableEq

/-- Continuation of `fork_and_create_pr` once the fork and the base branch are
resolved: lines 70-171 of solver.py.  `w₂` is the state after the base branch
step (only `repos` can differ from the entry state, so the failure flags and
the user login are read from `w₂`); `fork₂` is the fork repository as read,
`baseSha` the commit the base branch points at, `logs₂` the log so far. -/
def fork_and_create_pr.afterBase (upstream_repo_name : String) (issue_number : Nat)
    ( branch_prefix : String) (base_branch : String) (upstream_repo : Repo)
    (fork_full_name : String) (w₂ : World) (fork₂ : Repo) (baseSha : Nat)
    (logs₂ : List String) : World × OrchOut :=
  -- lines 70-81: create the issue branch; fails when the name already exists
  let new_branch_name := branch_prefix ++ "-" ++ toString issue_number
  match alookup new_branch_name fork₂.branches with
  | some _ =>
      (w₂, ⟨OrchReturn.ret OrchResult.branchCreateError,
            logs₂ ++ ["Error: Could not create branch " ++ new_branch_name ++ " on fork."]⟩)
  | none =>
    let fork₃ := { fork₂ with branches := (new_branch_name, baseSha) :: fork₂.branches }
    let w₃ := { w₂ with repos := modifyRepo w₂.repos fork_full_name (fun _ => fork₃) }
    let logs₃ := logs₂ ++ ["Created branch " ++ new_branch_name ++ " on fork."]
    -- lines 83-92: fetch the issue
    match alookup issue_number upstream_repo.issues with
    | none =>
        (w₃, ⟨OrchReturn.ret OrchResult.issueFetchError,
              logs₃ ++ ["Error: Could not fetch issue #" ++ toString issue_number]⟩)
    | some (issue_title, issue_body) =>
      let logs₄ := logs₃ ++ ["Analyzing issue #" ++ toString issue_number ++ ": " ++ issue_title]
      -- lines 94-108: enumerate the file tree
      if w₂.contentsError then
        (w₃, ⟨OrchReturn.ret OrchResult.contentsFetchError,
              logs₄ ++ ["Error: Could not fetch repository contents."]⟩)
      else
        let files_to_analyze := walkContents fork₃.tree
        let logs₅ := logs₄ ++
          ["Found " ++ toString files_to_analyze.length ++ " files to analyze"]
        -- lines 116-128: select the changes
        let changes_needed := computeChanges files_to_analyze
        -- lines 131-143: commit each change (per-file failures logged, loop continues)
        let committed := commitChanges issue_number new_branch_name
          w₂.updateFailPaths changes_needed
        let fork₄ := { fork₃ with updates := fork₃.updates ++ committed.1 }
        let w₄ := { w₃ with repos := modifyRepo w₃.repos fork_full_name (fun _ => fork₄) }
        let logs₆ := logs₅ ++ committed.2
        -- lines 146-171: open the pull request
        let pr_title := "Fixes #" ++ toString issue_number ++ ": " ++ issue_title
        let pr_body := mkPrBody issue_number changes_needed issue_body
        let head_with_owner := w₂.userLogin ++ ":" ++ new_branch_name
        if w₂.prCreateFails then
          (w₄, ⟨OrchReturn.ret OrchResult.prCreateError,
                logs₆ ++ ["Error creating pull request in upstream repo."]⟩)
        else
          let pr : PullRequest := ⟨pr_title, pr_body, head_with_owner, base_branch⟩
          let addPr := fun (r : Repo) => { r with prs := r.prs ++ [pr] }
          ({ w₄ with repos := modifyRepo w₄.repos upstream_repo_name addPr },
           ⟨OrchReturn.ret (OrchResult.prCreated pr),
            logs₆ ++ ["Pull Request created successfully."]⟩)

/-- Continuation of `fork_and_create_pr` once the fork is resolved:
lines 56-68 of solver.py, resolving or creating the base branch on the fork,
then handing over to `afterBase`. -/
def fork_and_create_pr.afterFork (upstream_repo_name : String) (issue_number : Nat)
    ( branch_prefix : String) (base_branch : String) (w₁ : World) (upstream_repo : Repo)
    (fork_full_name : String) (fork_repo : Repo) (logs₁ : List String) :
    World × OrchOut :=
  match alookup base_branch fork_repo.branches with
  | some sha =>
      fork_and_create_pr.afterBase upstream_repo_name issue_number branch_prefix
        base_branch upstream_repo fork_full_name w₁ fork_repo sha
        (logs₁ ++ ["Found base branch " ++ base_branch ++ " on fork."])
  | none =>
    match alookup base_branch upstream_repo.branches with
    | none =>
        -- line 65: reading the base ref on the upstream raises outside any try
        (w₁, ⟨OrchReturn.exn "base branch missing on upstream",
              logs₁ ++ ["Could not find base branch " ++ base_branch ++
                          " on fork. Attempting to create it from upstream..."]⟩)
    | some usha =>
      let fork₂ := { fork_repo with branches := (base_branch, usha) :: fork_repo.branches }
      fork_and_create_pr.afterBase upstream_repo_name issue_number branch_prefix
        base_branch upstream_repo fork_full_name
        { w₁ with repos := modifyRepo w₁.repos fork_full_name (fun _ => fork₂) }
        fork₂ usha
        (logs₁ ++ ["Could not find base branch " ++ base_branch ++
                     " on fork. Attempting to create it from upstream...",
                   "Created branch " ++ base_branch ++ " on fork from upstream."])

/-- Shallow embedding of `fork_and_create_pr` (solver.py lines 13-171),
threading the remote state `World` and collecting the printed log lines
(with exception interpolations and quotes elided). -/
def fork_and_create_pr (upstream_repo_name : String) (issue_number : Nat)
    ( branch_prefix : String) (base_branch : String) (w : World) : World × OrchOut :=
  -- lines 35-40: resolve the upstream repository (failure handled: log, return)
  match alookup upstream_repo_name w.repos with
  | none =>
      (w, ⟨OrchReturn.ret OrchResult.upstreamAccessError,
           ["Error: Could not access upstream repository " ++ upstream_repo_name]⟩)
  | some upstream_repo =>
    -- lines 42-54: resolve or create the fork
    let fork_full_name := w.userLogin ++ "/" ++ upstream_repo.name
    match alookup fork_full_name w.repos with
    | some fork_repo =>
      fork_and_create_pr.afterFork upstream_repo_name issue_number branch_prefix
        base_branch w upstream_repo fork_full_name fork_repo
        ["Found existing fork: " ++ fork_full_name]
    | none =>
      match w.forkProvision with
      | none =>
          -- line 53: the re-fetch after create_fork raises outside any try
          (w, ⟨OrchReturn.exn "fork not visible after creation",
               ["No existing fork found for " ++ fork_full_name ++ ". Creating a new fork..."]⟩)
      | some fork_repo =>
          fork_and_create_pr.afterFork upstream_repo_name issue_number branch_prefix
            base_branch { w with repos := (fork_full_name, fork_repo) :: w.repos }
            upstream_repo fork_full_name fork_repo
            ["No existing fork found for " ++ fork_full_name ++ ". Creating a new fork...",
             "Fork created: " ++ fork_full_name]


/-- Consume an expected literal character sequence from the front of the
input, returning the remainder on success. -/
def dropLit : List Char → List Char → Option (List Char)
  | [], rest => some rest
  | _ :: _, [] => none
  | c :: cs, d :: ds => if c = d then dropLit cs ds else none

/-- Decimal value of a digit run, as computed by Python `int`. -/
def digitsToNat (ds : List Char) : Nat :=
  ds.foldl (fun a c => a * 10 + (c.toNat - 48)) 0

/-- Executable embedding of the anchored-at-start, unanchored-at-end match
performed by `re.match` against `https://github.com/([^/]+/[^/]+)/issues/(\d+)`
(solver.py line 211), returning `(group 1, int(group 2))` on success.
The character classes `[^/]+` are realised by maximal slash-free segments and
`\d+` by the maximal digit run (the ASCII reading of `\d`); since `[^/]` can
never match a slash and `\d+` has nothing after it to backtrack for, the
regex match is deterministic and equals this parser. -/
def parseIssueLinkChars (cs : List Char) : Option (String × Nat) :=
  match dropLit "https://github.com/".data cs with
  | none => none
  | some r₀ =>
    let owner := r₀.takeWhile (fun c => c ≠ '/')
    let r₁ := r₀.dropWhile (fun c => c ≠ '/')
    if owner = [] then none
    else
      match r₁ with
      | [] => none
      | _ :: r₂ =>
        -- the dropped character is necessarily the slash after `[^/]+`
        let repo := r₂.takeWhile (fun c => c ≠ '/')
        let r₃ := r₂.dropWhile (fun c => c ≠ '/')
        if repo = [] then none
        else
          match dropLit "/issues/".data r₃ with
          | none => none
          | some r₄ =>
            let digits := r₄.takeWhile Char.isDigit
            if digits = [] then none
            else some (String.mk (owner ++ '/' :: repo), digitsToNat digits)

/-- String-level wrapper of the issue-link pattern match. -/
def parseIssueLink (s : String) : Option (String × Nat) :=
  parseIssueLinkChars s.data

/-- A row of the external `Issues` table; `issue_link = none` models a row
whose `issue_link` field is absent (`issue.get` returning `None`). -/
structure Row where
  issue_link : Option String
deriving DecidableEq

/-- Observable output of one poll cycle: the orchestrator invocations made
(link, owner/repo, issue number), the links appended to the processed-issues
file, and the log lines printed by the driver and the orchestrator. -/
structure CycleOut where
  invocations : List (String × String × Nat)
  appended : List String
  logs : List String
deriving DecidableEq

/-- One iteration of the `while True:` loop of `solve_bounty`
(solver.py lines 190-232), processing the rows returned by the store query
in order.  `processed` is the in-memory snapshot of the processed-issues
file loaded at the start of the cycle; it is not updated while the cycle
runs (the Python set is loaded once per cycle).  A row with a missing or
empty `issue_link` is skipped silently (line 203, no print); a row whose
link is already processed is skipped silently (line 207); a malformed link
is logged and skipped; otherwise the orchestrator is invoked and the link
is appended whenever the call returns without raising - which in solver.py
includes every handled failure path.  The fixed 30-second sleep and the
unbounded outer loop are not part of the embedding. -/
def solve_bounty_cycle (processed : List String) (w : World) :
    List Row → World × CycleOut
  | [] => (w, ⟨[], [], []⟩)
  | row :: rest =>
    match row.issue_link with
    | none => solve_bounty_cycle processed w rest
    | some link =>
      if link = "" then solve_bounty_cycle processed w rest
      else if link ∈ processed then solve_bounty_cycle processed w rest
      else
        match parseIssueLink link with
        | none =>
          let r := solve_bounty_cycle processed w rest
          (r.1, ⟨r.2.invocations, r.2.appended,
                 ("Invalid issue link format: " ++ link) :: r.2.logs⟩)
        | some (repo_name, issue_number) =>
          let step := fork_and_create_pr repo_name issue_number "issue-fix" "main" w
          let headLog := "Processing issue: " ++ repo_name ++ "#" ++ toString issue_number
          match step.2.ret with
          | OrchReturn.exn msg =>
            let r := solve_bounty_cycle processed step.1 rest
            (r.1, ⟨(link, repo_name, issue_number) :: r.2.invocations, r.2.appended,
                   headLog :: step.2.logs ++
                     ("Error processing issue " ++ link ++ ": " ++ msg) :: r.2.logs⟩)
          | OrchReturn.ret _ =>
            let r := solve_bounty_cycle processed step.1 rest
            (r.1, ⟨(link, repo_name, issue_number) :: r.2.invocations,
                   link :: r.2.appended,
                   headLog :: step.2.logs ++ r.2.logs⟩)

/-- The pull request carried by a success result (used to name the concrete
pull request produced by a concrete run). -/
def prOf : OrchReturn → PullRequest
  | OrchReturn.ret (OrchResult.prCreated pr) => pr
  | _ => ⟨"", "", "", ""⟩

/-- Whether an invocation reached the pull-request step: it either created
the pull request or failed exactly at `create_pull`. -/
def prAttempted : OrchReturn → Bool
  | OrchReturn.ret OrchResult.prCreateError => true
  | OrchReturn.ret (OrchResult.prCreated _) => true
  | _ => false

/-- Modelled from the spec: the single-shot command-line entry point of the
minimal-variant orchestration script.  The repository holds two near-duplicate
scripts but only solver.py is under `src/`; the missing script is the one the
spec describes as taking positional arguments `upstream_repo_name`,
`issue_number`, `github_token` and exiting with status 1 on any unrecoverable
failure and 0 otherwise (in solver.py itself the corresponding `sys.exit(1)`
calls are commented out and `__main__` runs the polling loop instead).
The modelled entry point runs the orchestrator once and maps its outcome to
the documented exit status. -/
def single_shot_exit_code (upstream_repo_name : String) (issue_number : Nat)
    (w : World) : Nat :=
  match (fork_and_create_pr upstream_repo_name issue_number "issue-fix" "main" w).2.ret with
  | OrchReturn.ret (OrchResult.prCreated _) => 0
  | _ => 1

/-- Concrete upstream repository used to evaluate the embedding: one issue,
a README at the root and one subdirectory. -/
def upstreamWidgets : Repo :=
  { name := "widgets"
    branches := [("main", 100)]
    tree := [Entry.file "README.md" (some "# Widgets") "sha1",
             Entry.dir "docs" [Entry.file "docs/guide.md" (some "guide") "sha2"]]
    issues := [(7, "Bug in frobnicator", "It frobs wrong")]
    prs := []
    updates := [] }

/-- Concrete upstream repository whose tree has no `README.md`. -/
def upstreamNoReadme : Repo :=
  { name := "widgets"
    branches := [("main", 100)]
    tree := [Entry.file "src.py" (some "print(1)") "sha9",
             Entry.dir "docs" [Entry.file "docs/guide.md" (some "guide") "sha2"]]
    issues := [(7, "Bug in frobnicator", "It frobs wrong")]
    prs := []
    updates := [] }

/-- A world where the upstream and its fork both exist and nothing fails. -/
def wExample : World :=
  { userLogin := "me"
    repos := [("acme/widgets", upstreamWidgets), ("me/widgets", upstreamWidgets)]
    forkProvision := none
    contentsError := false
    updateFailPaths := []
    prCreateFails := false }

/-- A world where the upstream repository is inaccessible. -/
def wNoUpstream : World :=
  { userLogin := "me"
    repos := []
    forkProvision := none
    contentsError := false
    updateFailPaths := []
    prCreateFails := false }

/-- A world where upstream and fork exist but the fork tree has no README. -/
def wNoReadme : World :=
  { userLogin := "me"
    repos := [("acme/widgets", upstreamNoReadme), ("me/widgets", upstreamNoReadme)]
    forkProvision := none
    contentsError := false
    updateFailPaths := []
    prCreateFails := false }

/-- A world where the `update_file` call on `README.md` fails. -/
def wUpdateFail : World :=
  { userLogin := "me"
    repos := [("acme/widgets", upstreamWidgets), ("me/widgets", upstreamWidgets)]
    forkProvision := none
    contentsError := false
    updateFailPaths := ["README.md"]
    prCreateFails := false }

/-- A world where the upstream exists, the fork does not, and the fork is
still not visible after `create_fork` plus the wait (the re-fetch raises). -/
def wForkAbsent : World :=
  { userLogin := "me"
    repos := [("acme/widgets", upstreamWidgets)]
    forkProvision := none
    contentsError := false
    updateFailPaths := []
    prCreateFails := false }

/-! ### Helper lemmas -/

theorem alookup_cons {β : Type} (k a : String) (v : β) (rs : List (String × β)) :
    alookup k ((a, v) :: rs) = if a = k then some v else alookup k rs := rfl

theorem alookup_modifyRepo (rs : List (String × Repo)) (k k₂ : String) (f : Repo → Repo) :
    alookup k (modifyRepo rs k₂ f) =
      if k₂ = k then (alookup k rs).map f else alookup k rs := by
  induction rs with
  | nil => simp [alookup, modifyRepo]
  | cons p ps ih =>
    obtain ⟨a, v⟩ := p
    rw [modifyRepo]
    by_cases hk : a = k₂
    · rw [if_pos hk]
      subst hk
      by_cases hak : a = k
      · subst hak; simp [alookup_cons, ih]
      · simp [alookup_cons, hak, ih]
    · rw [if_neg hk]
      by_cases hak : a = k
      · subst hak
        have hkk : ¬ k₂ = a := fun h => hk h.symm
        simp [alookup_cons, hkk, ih]
      · simp [alookup_cons, hak, ih]

theorem marker_in_mkPrBody (n : Nat) (cs : List (FileNode × String)) (b : String) :
    ∃ p s, mkPrBody n cs b = p ++ markerToken ++ s :=
  ⟨"This PR addresses issue #" ++ toString n ++ "\n\n" ++
    "## Changes Made\n" ++
    "The following files were modified:\n" ++
    String.intercalate "\n" (cs.map (fun c => "- " ++ c.1.path)) ++
    "\n\n## Original Issue\n" ++ b ++ "\n\n" ++ "`", "`", rfl⟩

theorem afterBase_marker (u : String) (n : Nat) (bp bb : String)
    (up : Repo) (ffn : String) (w₂ : World) (f₂ : Repo) (sha : Nat)
    (logs₂ : List String) (pr : PullRequest)
    (hret : (fork_and_create_pr.afterBase u n bp bb up ffn w₂ f₂ sha logs₂).2.ret =
      OrchReturn.ret (OrchResult.prCreated pr)) :
    ∃ p s, pr.body = p ++ markerToken ++ s := by
  cases hnb : alookup (bp ++ "-" ++ toString n) f₂.branches with
  | some v => simp [fork_and_create_pr.afterBase, hnb] at hret
  | none =>
    cases hiss : alookup n up.issues with
    | none => simp [fork_and_create_pr.afterBase, hnb, hiss] at hret
    | some tb =>
      obtain ⟨t, b⟩ := tb
      by_cases hce : w₂.contentsError = true
      · simp [fork_and_create_pr.afterBase, hnb, hiss, hce] at hret
      · by_cases hpc : w₂.prCreateFails = true
        · simp [fork_and_create_pr.afterBase, hnb, hiss, hce, hpc] at hret
        · simp [fork_and_create_pr.afterBase, hnb, hiss, hce, hpc] at hret
          subst hret
          exact marker_in_mkPrBody n _ _

theorem afterFork_marker (u : String) (n : Nat) (bp bb : String) (w₁ : World)
    (up : Repo) (ffn : String) (fr : Repo) (logs₁ : List String) (pr : PullRequest)
    (hret : (fork_and_create_pr.afterFork u n bp bb w₁ up ffn fr logs₁).2.ret =
      OrchReturn.ret (OrchResult.prCreated pr)) :
    ∃ p s, pr.body = p ++ markerToken ++ s := by
  cases hbb : alookup bb fr.branches with
  | some sha =>
    rw [fork_and_create_pr.afterFork, hbb] at hret
    exact afterBase_marker u n bp bb up ffn w₁ fr sha _ pr hret
  | none =>
    cases hub : alookup bb up.branches with
    | none => simp [fork_and_create_pr.afterFork, hbb, hub] at hret
    | some usha =>
      rw [fork_and_create_pr.afterFork, hbb] at hret
      simp only [hub] at hret
      exact afterBase_marker u n bp bb up ffn _ _ usha _ pr hret

theorem branch_exists_fails (u : String) (n : Nat) (bp bb : String) (w : World)
    (up fr : Repo) (sha sha₂ : Nat)
    (hup : alookup u w.repos = some up)
    (hfk : alookup (w.userLogin ++ "/" ++ up.name) w.repos = some fr)
    (hbb : alookup bb fr.branches = some sha)
    (hnb : alookup (bp ++ "-" ++ toString n) fr.branches = some sha₂) :
    (fork_and_create_pr u n bp bb w).1 = w ∧
    (fork_and_create_pr u n bp bb w).2.ret = OrchReturn.ret OrchResult.branchCreateError := by
  simp only [fork_and_create_pr, hup, hfk, fork_and_create_pr.afterFork, hbb,
    fork_and_create_pr.afterBase, hnb]
  exact ⟨by first | rfl | trivial, by first | rfl | trivial⟩

theorem afterBase_success_facts (u : String) (n : Nat) (bp bb : String)
    (up up₂ : Repo) (ffn : String) (w₂ : World) (f₂ : Repo) (sha shaB : Nat)
    (logs₂ : List String) (pr : PullRequest)
    (hsucc : (fork_and_create_pr.afterBase u n bp bb up ffn w₂ f₂ sha logs₂).2.ret =
      OrchReturn.ret (OrchResult.prCreated pr))
    (hup₂ : alookup u w₂.repos = some up₂)
    (hfk₂ : alookup ffn w₂.repos = some f₂)
    (hbb₂ : alookup bb f₂.branches = some shaB) :
    (fork_and_create_pr.afterBase u n bp bb up ffn w₂ f₂ sha logs₂).1.userLogin
        = w₂.userLogin ∧
    (alookup u
        (fork_and_create_pr.afterBase u n bp bb up ffn w₂ f₂ sha logs₂).1.repos).map Repo.name
      = some up₂.name ∧
    (alookup ffn
        (fork_and_create_pr.afterBase u n bp bb up ffn w₂ f₂ sha logs₂).1.repos).map
          (fun f₃ => ((alookup bb f₃.branches).isSome,
                      (alookup (bp ++ "-" ++ toString n) f₃.branches).isSome))
      = some (true, true) := by
  cases hnb : alookup (bp ++ "-" ++ toString n) f₂.branches with
  | some v => simp [fork_and_create_pr.afterBase, hnb] at hsucc
  | none =>
    cases hiss : alookup n up.issues with
    | none => simp [fork_and_create_pr.afterBase, hnb, hiss] at hsucc
    | some tb =>
      obtain ⟨t, b⟩ := tb
      by_cases hce : w₂.contentsError = true
      · simp [fork_and_create_pr.afterBase, hnb, hiss, hce] at hsucc
      · by_cases hpc : w₂.prCreateFails = true
        · simp [fork_and_create_pr.afterBase, hnb, hiss, hce, hpc] at hsucc
        · obtain ⟨sB, hB⟩ : ∃ s, alookup bb
              ((bp ++ "-" ++ toString n, sha) :: f₂.branches) = some s := by
            by_cases h : (bp ++ "-" ++ toString n) = bb
            · exact ⟨sha, by simp [alookup_cons, h]⟩
            · exact ⟨shaB, by simp [alookup_cons, h, hbb₂]⟩
          have hN : alookup (bp ++ "-" ++ toString n)
              ((bp ++ "-" ++ toString n, sha) :: f₂.branches) = some sha := by
            simp [alookup_cons]
          by_cases hu : u = ffn
          · subst hu
            have hf : up₂ = f₂ := by
              rw [hup₂] at hfk₂; exact Option.some_injective _ hfk₂
            refine ⟨by simp [fork_and_create_pr.afterBase, hnb, hiss, hce, hpc], ?_, ?_⟩
            · simp [fork_and_create_pr.afterBase, hnb, hiss, hce, hpc,
                alookup_modifyRepo, hfk₂, hf]
            · simp [fork_and_create_pr.afterBase, hnb, hiss, hce, hpc,
                alookup_modifyRepo, hfk₂, hB, hN]
          · have hfu : ¬ ffn = u := fun h => hu h.symm
            refine ⟨by simp [fork_and_create_pr.afterBase, hnb, hiss, hce, hpc], ?_, ?_⟩
            · simp [fork_and_create_pr.afterBase, hnb, hiss, hce, hpc,
                alookup_modifyRepo, hu, hfu, hup₂]
            · simp [fork_and_create_pr.afterBase, hnb, hiss, hce, hpc,
                alookup_modifyRepo, hu, hfu, hfk₂, hB, hN]

theorem fork_success_facts (u : String) (n : Nat) (bp bb : String) (w : World)
    (up fr : Repo) (pr : PullRequest)
    (hup : alookup u w.repos = some up)
    (hfk : alookup (w.userLogin ++ "/" ++ up.name) w.repos = some fr)
    (hsucc : (fork_and_create_pr u n bp bb w).2.ret =
      OrchReturn.ret (OrchResult.prCreated pr)) :
    (fork_and_create_pr u n bp bb w).1.userLogin = w.userLogin ∧
    (alookup u (fork_and_create_pr u n bp bb w).1.repos).map Repo.name = some up.name ∧
    (alookup (w.userLogin ++ "/" ++ up.name) (fork_and_create_pr u n bp bb w).1.repos).map
      (fun f₃ => ((alookup bb f₃.branches).isSome,
                  (alookup (bp ++ "-" ++ toString n) f₃.branches).isSome))
      = some (true, true) := by
  have hrun : fork_and_create_pr u n bp bb w =
      fork_and_create_pr.afterFork u n bp bb w up (w.userLogin ++ "/" ++ up.name) fr
        ["Found existing fork: " ++ (w.userLogin ++ "/" ++ up.name)] := by
    simp [fork_and_create_pr, hup, hfk]
  rw [hrun] at hsucc ⊢
  cases hbb : alookup bb fr.branches with
  | some sha =>
    rw [fork_and_create_pr.afterFork, hbb] at hsucc ⊢
    exact afterBase_success_facts u n bp bb up up _ w fr sha sha _ pr hsucc hup hfk hbb
  | none =>
    cases hub : alookup bb up.branches with
    | none =>
      rw [fork_and_create_pr.afterFork, hbb, hub] at hsucc
      simp at hsucc
    | some usha =>
      rw [fork_and_create_pr.afterFork, hbb] at hsucc ⊢
      simp only [hub] at hsucc ⊢
      have hfk₂ : alookup (w.userLogin ++ "/" ++ up.name)
          (modifyRepo w.repos (w.userLogin ++ "/" ++ up.name)
            (fun _ => { fr with branches := (bb, usha) :: fr.branches })) =
          some { fr with branches := (bb, usha) :: fr.branches } := by
        simp [alookup_modifyRepo, hfk]
      have hbb₂ : alookup bb ((bb, usha) :: fr.branches) = some usha := by
        simp [alookup_cons]
      by_cases hfu : (w.userLogin ++ "/" ++ up.name) = u
      · have hupfr : up = fr := by
          rw [← hfu] at hup; rw [hup] at hfk
          exact Option.some_injective _ hfk
        have hup₂ : alookup u
            (modifyRepo w.repos (w.userLogin ++ "/" ++ up.name)
              (fun _ => { fr with branches := (bb, usha) :: fr.branches })) =
            some { fr with branches := (bb, usha) :: fr.branches } := by
          rw [← hfu]; exact hfk₂
        obtain ⟨hL, hU, hF⟩ := afterBase_success_facts u n bp bb up
          _ _ _ _ usha usha _ pr hsucc hup₂ hfk₂ hbb₂
        refine ⟨by simpa using hL, ?_, by simpa using hF⟩
        rw [hU]
        simp [hupfr]
      · have hup₂ : alookup u
            (modifyRepo w.repos (w.userLogin ++ "/" ++ up.name)
              (fun _ => { fr with branches := (bb, usha) :: fr.branches })) = some up := by
          simp [alookup_modifyRepo, hfu, hup]
        obtain ⟨hL, hU, hF⟩ := afterBase_success_facts u n bp bb up up
          _ _ _ usha usha _ pr hsucc hup₂ hfk₂ hbb₂
        exact ⟨by simpa using hL, hU, by simpa using hF⟩

theorem processed_link_never_invoked (processed : List String) (w : World)
    (rows : List Row) (u : String) (hu : u ∈ processed) :
    ∀ inv ∈ (solve_bounty_cycle processed w rows).2.invocations, inv.1 ≠ u := by
  induction rows generalizing w with
  | nil => simp [solve_bounty_cycle]
  | cons row rest ih =>
    cases hlink : row.issue_link with
    | none => simpa [solve_bounty_cycle, hlink] using ih w
    | some l =>
      by_cases hne : l = ""
      · simpa [solve_bounty_cycle, hlink, hne] using ih w
      · by_cases hmem : l ∈ processed
        · simpa [solve_bounty_cycle, hlink, hne, hmem] using ih w
        · cases hparse : parseIssueLink l with
          | none => simpa [solve_bounty_cycle, hlink, hne, hmem, hparse] using ih w
          | some pr =>
            obtain ⟨repo_name, issue_number⟩ := pr
            have hlu : l ≠ u := fun h => hmem (h ▸ hu)
            have hcycle : (solve_bounty_cycle processed w (row :: rest)).2.invocations =
                (l, repo_name, issue_number) ::
                  (solve_bounty_cycle processed
                    (fork_and_create_pr repo_name issue_number "issue-fix" "main" w).1
                    rest).2.invocations := by
              cases hret : (fork_and_create_pr repo_name issue_number "issue-fix" "main" w).2.ret with
              | exn m => simp [solve_bounty_cycle, hlink, hne, hmem, hparse, hret]
              | ret r => simp [solve_bounty_cycle, hlink, hne, hmem, hparse, hret]
            rw [hcycle]
            intro inv hinv
            rcases List.mem_cons.mp hinv with h | h
            · subst h; simpa using hlu
            · exact ih _ inv h

theorem single_row_skip (processed : List String) (w : World) (r : Row) (u : String)
    (hl : r.issue_link = some u) (h : u ∈ processed) :
    (solve_bounty_cycle processed w [r]).2.invocations = [] := by
  by_cases he : u = ""
  · subst he; simp [solve_bounty_cycle, hl]
  · simp [solve_bounty_cycle, hl, he, h]

theorem malformed_link_skipped (processed : List String) (w : World)
    (row : Row) (rest : List Row) (l : String)
    (hlink : row.issue_link = some l) (hne : l ≠ "")
    (hmem : l ∉ processed) (hparse : parseIssueLink l = none) :
    (solve_bounty_cycle processed w (row :: rest)).1 =
        (solve_bounty_cycle processed w rest).1 ∧
    (solve_bounty_cycle processed w (row :: rest)).2.invocations =
        (solve_bounty_cycle processed w rest).2.invocations ∧
    (solve_bounty_cycle processed w (row :: rest)).2.appended =
        (solve_bounty_cycle processed w rest).2.appended ∧
    (solve_bounty_cycle processed w (row :: rest)).2.logs =
        ("Invalid issue link format: " ++ l) ::
          (solve_bounty_cycle processed w rest).2.logs := by
  simp [solve_bounty_cycle, hlink, hne, hmem, hparse]

theorem cycle_single_valid_row (processed : List String) (w : World)
    (link repo_name : String) (issue_number : Nat)
    (hne : link ≠ "") (hmem : link ∉ processed)
    (hparse : parseIssueLink link = some (repo_name, issue_number)) :
    (solve_bounty_cycle processed w [⟨some link⟩]).2.invocations =
      [(link, repo_name, issue_number)] := by
  cases hret : (fork_and_create_pr repo_name issue_number "issue-fix" "main" w).2.ret with
  | exn m => simp [solve_bounty_cycle, hne, hmem, hparse, hret]
  | ret res => simp [solve_bounty_cycle, hne, hmem, hparse, hret]

theorem exn_row_logged (processed : List String) (w : World)
    (link rn : String) (n : Nat) (m : String)
    (hne : link ≠ "") (hmem : link ∉ processed)
    (hparse : parseIssueLink link = some (rn, n))
    (hret : (fork_and_create_pr rn n "issue-fix" "main" w).2.ret = OrchReturn.exn m) :
    ("Error processing issue " ++ link ++ ": " ++ m) ∈
        (solve_bounty_cycle processed w [⟨some link⟩]).2.logs ∧
    (solve_bounty_cycle processed w [⟨some link⟩]).2.appended = [] := by
  simp [solve_bounty_cycle, hne, hmem, hparse, hret]

theorem dropLit_append (l xs : List Char) : dropLit l (l ++ xs) = some xs := by
  induction l with
  | nil => rfl
  | cons c cs ih => simp [dropLit, ih]

theorem takeWhile_append_of (p : Char → Bool) (xs ys : List Char)
    (hxs : ∀ a ∈ xs, p a = true)
    (hys : ∀ y, ys.head? = some y → p y = false) :
    (xs ++ ys).takeWhile p = xs := by
  induction xs with
  | nil =>
    cases ys with
    | nil => rfl
    | cons y ys => simp [List.takeWhile_cons, hys y rfl]
  | cons a as ih =>
    simp only [List.cons_append, List.takeWhile_cons, hxs a (List.mem_cons_self a as),
      if_true, List.cons.injEq, true_and]
    exact ih (fun b hb => hxs b (List.mem_cons_of_mem a hb))

theorem dropWhile_append_of (p : Char → Bool) (xs ys : List Char)
    (hxs : ∀ a ∈ xs, p a = true)
    (hys : ∀ y, ys.head? = some y → p y = false) :
    (xs ++ ys).dropWhile p = ys := by
  induction xs with
  | nil =>
    cases ys with
    | nil => rfl
    | cons y ys => simp [List.dropWhile_cons, hys y rfl]
  | cons a as ih =>
    simp only [List.cons_append, List.dropWhile_cons, hxs a (List.mem_cons_self a as),
      if_true]
    exact ih (fun b hb => hxs b (List.mem_cons_of_mem a hb))

theorem string_data_append (a b : String) : (a ++ b).data = a.data ++ b.data := rfl

theorem parseIssueLinkChars_eq (o r d rest : List Char)
    (ho : o ≠ []) (hoc : ∀ c ∈ o, c ≠ '/')
    (hr : r ≠ []) (hrc : ∀ c ∈ r, c ≠ '/')
    (hd : d ≠ []) (hdc : ∀ c ∈ d, c.isDigit = true)
    (hrest : ∀ c, rest.head? = some c → c.isDigit = false) :
    parseIssueLinkChars
        ("https://github.com/".data ++
          (o ++ '/' :: (r ++ ("/issues/".data ++ (d ++ rest))))) =
      some (String.mk (o ++ '/' :: r), digitsToNat d) := by
  have hto : List.takeWhile (fun c => c ≠ '/')
      (o ++ '/' :: (r ++ ("/issues/".data ++ (d ++ rest)))) = o := by
    apply takeWhile_append_of
    · intro a ha; simpa using hoc a ha
    · intro y hy
      simp only [List.head?_cons, Option.some.injEq] at hy
      subst hy; simp
  have hdo : List.dropWhile (fun c => c ≠ '/')
      (o ++ '/' :: (r ++ ("/issues/".data ++ (d ++ rest)))) =
      '/' :: (r ++ ("/issues/".data ++ (d ++ rest))) := by
    apply dropWhile_append_of
    · intro a ha; simpa using hoc a ha
    · intro y hy
      simp only [List.head?_cons, Option.some.injEq] at hy
      subst hy; simp
  have htr : List.takeWhile (fun c => c ≠ '/')
      (r ++ ("/issues/".data ++ (d ++ rest))) = r := by
    apply takeWhile_append_of
    · intro a ha; simpa using hrc a ha
    · intro y hy
      simp only [List.cons_append, List.head?_cons, Option.some.injEq] at hy
      subst hy; simp
  have hdr : List.dropWhile (fun c => c ≠ '/')
      (r ++ ("/issues/".data ++ (d ++ rest))) = "/issues/".data ++ (d ++ rest) := by
    apply dropWhile_append_of
    · intro a ha; simpa using hrc a ha
    · intro y hy
      simp only [List.cons_append, List.head?_cons, Option.some.injEq] at hy
      subst hy; simp
  have hdig : List.takeWhile Char.isDigit (d ++ rest) = d := by
    apply takeWhile_append_of
    · exact hdc
    · exact hrest
  simp only [parseIssueLinkChars, dropLit_append, hto, hdo, htr, hdr, hdig]
  simp [ho, hr, hd]

theorem parseIssueLink_prefix (o r d rest : String)
    (ho : o ≠ "") (hoc : ∀ c ∈ o.data, c ≠ '/')
    (hr : r ≠ "") (hrc : ∀ c ∈ r.data, c ≠ '/')
    (hd : d ≠ "") (hdc : ∀ c ∈ d.data, c.isDigit = true)
    (hrest : ∀ c, rest.data.head? = some c → c.isDigit = false) :
    parseIssueLink ("https://github.com/" ++ o ++ "/" ++ r ++ "/issues/" ++ d ++ rest) =
      some (o ++ "/" ++ r, digitsToNat d.data) := by
  have hod : o.data ≠ [] := fun h => ho (by cases o; simpa using congrArg String.mk h)
  have hrd : r.data ≠ [] := fun h => hr (by cases r; simpa using congrArg String.mk h)
  have hdd : d.data ≠ [] := fun h => hd (by cases d; simpa using congrArg String.mk h)
  have hdata : ("https://github.com/" ++ o ++ "/" ++ r ++ "/issues/" ++ d ++ rest).data =
      "https://github.com/".data ++
        (o.data ++ '/' :: (r.data ++ ("/issues/".data ++ (d.data ++ rest.data)))) := by
    simp [string_data_append, List.append_assoc]
  have hmk : String.mk (o.data ++ '/' :: r.data) = o ++ "/" ++ r := by
    have hlist : o.data ++ '/' :: r.data = (o ++ "/" ++ r).data := by
      simp [string_data_append, List.append_assoc]
    exact hlist ▸ rfl
  rw [parseIssueLink, hdata,
    parseIssueLinkChars_eq o.data r.data d.data rest.data hod hoc hrd hrc hdd hdc hrest,
    hmk]

theorem commitChanges_spec (n : Nat) (br : String) (fails : List String)
    (cs : List (FileNode × String)) :
    (∀ op ∈ (commitChanges n br fails cs).1,
        op.message = "Fix issue #" ++ toString n ∧ op.branch = br) ∧
    (commitChanges n br fails cs).2 = cs.map (fun c =>
        if c.1.path ∈ fails then "Error updating " ++ c.1.path
        else "Updated " ++ c.1.path) := by
  induction cs with
  | nil => simp [commitChanges]
  | cons c rest ih =>
    obtain ⟨f, nc⟩ := c
    by_cases hf : f.path ∈ fails
    · simp only [commitChanges, hf, if_pos, List.map_cons]
      refine ⟨ih.1, ?_⟩
      simp [hf, ih.2]
    · simp only [commitChanges, hf, if_neg, List.map_cons]
      refine ⟨?_, by simp [hf, ih.2]⟩
      intro op hop
      rcases List.mem_cons.mp hop with h | h
      · subst h; exact ⟨rfl, rfl⟩
      · exact ih.1 op h

theorem computeChanges_spec (files : List FileNode) :
    (∀ ch ∈ computeChanges files, ch.1.path = "README.md") ∧
    (∀ ch ∈ computeChanges files, ∀ s, ch.1.content = some s → ch.2 = s ++ "\nhello") ∧
    (∀ ch ∈ computeChanges files, ch.1.content = none → ch.2 = "hello") ∧
    ((∀ f ∈ files, f.path ≠ "README.md") → computeChanges files = []) := by
  induction files with
  | nil => simp [computeChanges]
  | cons f rest ih =>
    by_cases hp : f.path = "README.md"
    · refine ⟨?_, ?_, ?_, ?_⟩
      · intro ch hch
        rw [computeChanges, if_pos hp] at hch
        rcases List.mem_cons.mp hch with h | h
        · subst h; exact hp
        · exact ih.1 ch h
      · intro ch hch s hs
        rw [computeChanges, if_pos hp] at hch
        rcases List.mem_cons.mp hch with h | h
        · subst h; simp at hs ⊢; simp [hs]
        · exact ih.2.1 ch h s hs
      · intro ch hch hnone
        rw [computeChanges, if_pos hp] at hch
        rcases List.mem_cons.mp hch with h | h
        · subst h; simp at hnone ⊢; simp [hnone]
        · exact ih.2.2.1 ch h hnone
      · intro hall
        exact absurd hp (hall f (List.mem_cons_self f rest))
    · rw [computeChanges, if_neg hp]
      refine ⟨ih.1, ih.2.1, ih.2.2.1, ?_⟩
      intro hall
      exact ih.2.2.2 (fun g hg => hall g (List.mem_cons_of_mem f hg))

theorem pr_step_attempted (u : String) (n : Nat) (bp bb : String) (w : World)
    (up fr : Repo) (sha : Nat) (t b : String)
    (hup : alookup u w.repos = some up)
    (hfk : alookup (w.userLogin ++ "/" ++ up.name) w.repos = some fr)
    (hbb : alookup bb fr.branches = some sha)
    (hnb : alookup (bp ++ "-" ++ toString n) fr.branches = none)
    (hiss : alookup n up.issues = some (t, b))
    (hce : w.contentsError = false) :
    (fork_and_create_pr u n bp bb w).2.ret = OrchReturn.ret OrchResult.prCreateError ∨
    ∃ pr, (fork_and_create_pr u n bp bb w).2.ret =
      OrchReturn.ret (OrchResult.prCreated pr) := by
  by_cases hpc : w.prCreateFails = true
  · left
    simp [fork_and_create_pr, hup, hfk, fork_and_create_pr.afterFork, hbb,
      fork_and_create_pr.afterBase, hnb, hiss, hce, hpc]
  · right
    have hpc₂ : w.prCreateFails = false := by
      cases h : w.prCreateFails
      · rfl
      · exact absurd h hpc
    exact ⟨_, by
      simp only [fork_and_create_pr, hup, hfk, fork_and_create_pr.afterFork, hbb,
        fork_and_create_pr.afterBase, hnb, hiss, hce, hpc₂, Bool.false_eq_true,
        if_false, ite_false]
      rfl⟩

theorem afterBase_logs_nonempty (u : String) (n : Nat) (bp bb : String)
    (up : Repo) (ffn : String) (w₂ : World) (f₂ : Repo) (sha : Nat)
    (logs₂ : List String) (hl : logs₂ ≠ []) :
    (fork_and_create_pr.afterBase u n bp bb up ffn w₂ f₂ sha logs₂).2.logs ≠ [] := by
  cases hnb : alookup (bp ++ "-" ++ toString n) f₂.branches with
  | some v => simp [fork_and_create_pr.afterBase, hnb, hl]
  | none =>
    cases hiss : alookup n up.issues with
    | none => simp [fork_and_create_pr.afterBase, hnb, hiss, hl]
    | some tb =>
      obtain ⟨t, b⟩ := tb
      by_cases hce : w₂.contentsError = true
      · simp [fork_and_create_pr.afterBase, hnb, hiss, hce, hl]
      · by_cases hpc : w₂.prCreateFails = true
        · simp [fork_and_create_pr.afterBase, hnb, hiss, hce, hpc, hl]
        · simp [fork_and_create_pr.afterBase, hnb, hiss, hce, hpc, hl]

theorem afterFork_logs_nonempty (u : String) (n : Nat) (bp bb : String) (w₁ : World)
    (up : Repo) (ffn : String) (fr : Repo) (logs₁ : List String) (hl : logs₁ ≠ []) :
    (fork_and_create_pr.afterFork u n bp bb w₁ up ffn fr logs₁).2.logs ≠ [] := by
  cases hbb : alookup bb fr.branches with
  | some sha =>
    rw [fork_and_create_pr.afterFork, hbb]
    exact afterBase_logs_nonempty u n bp bb up ffn w₁ fr sha _ (by simp [hl])
  | none =>
    cases hub : alookup bb up.branches with
    | none => simp [fork_and_create_pr.afterFork, hbb, hub, hl]
    | some usha =>
      rw [fork_and_create_pr.afterFork, hbb]
      simp only [hub]
      exact afterBase_logs_nonempty u n bp bb up ffn _ _ usha _ (by simp [hl])

theorem orch_always_logs (u : String) (n : Nat) (bp bb : String) (w : World) :
    (fork_and_create_pr u n bp bb w).2.logs ≠ [] := by
  cases hup : alookup u w.repos with
  | none => simp [fork_and_create_pr, hup]
  | some up =>
    rw [fork_and_create_pr, hup]
    simp only []
    cases hfk : alookup (w.userLogin ++ "/" ++ up.name) w.repos with
    | some fr =>
      exact afterFork_logs_nonempty u n bp bb w up _ fr _ (by simp)
    | none =>
      cases hprov : w.forkProvision with
      | none => simp
      | some fr =>
        exact afterFork_logs_nonempty u n bp bb _ up _ fr _ (by simp)

/-! ### Claims -/

set_option maxRecDepth 100000

/-- C1: every issue URL in the Processed-Set at the start of a cycle is the
subject of no Orchestrator invocation during that cycle (the cycle skips the
row after the full re-read of the processed-issues file), and in the
two-cycle scenario - the store returns the same row in two consecutive
cycles with the Processed-Set persisted between them (the first cycle's
appended links joined onto the file) - the second cycle performs zero
Orchestrator invocations. -/
theorem c1_processed_url_never_reprocessed (processed : List String) (w w₂ : World)
    (rows : List Row) (r : Row) (u : String) :
    (u ∈ processed →
      ∀ inv ∈ (solve_bounty_cycle processed w rows).2.invocations, inv.1 ≠ u) ∧
    (r.issue_link = some u →
      u ∈ processed ++ (solve_bounty_cycle processed w [r]).2.appended →
      (solve_bounty_cycle (processed ++ (solve_bounty_cycle processed w [r]).2.appended)
        w₂ [r]).2.invocations = []) :=
  ⟨fun hu => processed_link_never_invoked processed w rows u hu,
   fun hl hm => single_row_skip _ w₂ r u hl hm⟩

/-- Witness for C1 at a concrete store row and world. -/
theorem c1_witness :
    (("https://github.com/acme/widgets/issues/7", "acme/widgets", 7) :
        String × String × Nat).1 ≠ "https://github.com/other/x/issues/9" ∧
    (solve_bounty_cycle
        ([] ++ (solve_bounty_cycle [] wExample
          [⟨some "https://github.com/acme/widgets/issues/7"⟩]).2.appended)
        wExample [⟨some "https://github.com/acme/widgets/issues/7"⟩]).2.invocations = [] :=
  ⟨(c1_processed_url_never_reprocessed ["https://github.com/other/x/issues/9"]
      wExample wExample [⟨some "https://github.com/acme/widgets/issues/7"⟩]
      ⟨some "https://github.com/acme/widgets/issues/7"⟩
      "https://github.com/other/x/issues/9").1 (by decide)
      ("https://github.com/acme/widgets/issues/7", "acme/widgets", 7) (by decide),
   (c1_processed_url_never_reprocessed [] wExample wExample
      [⟨some "https://github.com/acme/widgets/issues/7"⟩]
      ⟨some "https://github.com/acme/widgets/issues/7"⟩
      "https://github.com/acme/widgets/issues/7").2 rfl (by decide)⟩

/-- C2 counterexample: the claim says that when `README.md` does not exist on
the issue branch the Orchestrator creates it with a header.  In solver.py
(lines 116-128) no file is created in that case: the change list stays empty.
At this concrete world the fork tree has no `README.md`, the run succeeds
(a pull request is created), and the set of `update_file` calls recorded on
the fork is empty - no file is created or modified. -/
theorem c2_counterexample :
    walkContents upstreamNoReadme.tree =
      [⟨"src.py", some "print(1)", "sha9"⟩, ⟨"docs/guide.md", some "guide", "sha2"⟩] ∧
    (fork_and_create_pr "acme/widgets" 7 "issue-fix" "main" wNoReadme).2.ret =
      OrchReturn.ret (OrchResult.prCreated
        (prOf (fork_and_create_pr "acme/widgets" 7 "issue-fix" "main" wNoReadme).2.ret)) ∧
    (alookup "me/widgets"
        (fork_and_create_pr "acme/widgets" 7 "issue-fix" "main" wNoReadme).1.repos).map
      Repo.updates = some [] := by
  decide

/-- C2 (amended): the change-selection step only ever targets `README.md`:
every selected change is for a file whose path is exactly `README.md`; when
its content decodes, the new content is the old content with `"\nhello"`
appended (no prior content deleted); when decoding fails the content is
replaced by `"hello"`; and when no `README.md` exists in the walked tree, no
change at all is selected (in particular nothing is created). -/
theorem c2_readme_append_contract (files : List FileNode) :
    (∀ ch ∈ computeChanges files, ch.1.path = "README.md") ∧
    (∀ ch ∈ computeChanges files, ∀ s, ch.1.content = some s → ch.2 = s ++ "\nhello") ∧
    (∀ ch ∈ computeChanges files, ch.1.content = none → ch.2 = "hello") ∧
    ((∀ f ∈ files, f.path ≠ "README.md") → computeChanges files = []) :=
  computeChanges_spec files

/-- Witness for C2 (amended) at a concrete file list. -/
theorem c2_witness :
    ((⟨"README.md", some "# Widgets", "sha1"⟩ : FileNode), "# Widgets\nhello").2 =
      "# Widgets" ++ "\nhello" :=
  (c2_readme_append_contract
      [⟨"README.md", some "# Widgets", "sha1"⟩, ⟨"a.txt", some "x", "s"⟩]).2.1
    (⟨"README.md", some "# Widgets", "sha1"⟩, "# Widgets\nhello") (by decide)
    "# Widgets" (by decide)

/-- C3: when a run from a world with an existing fork succeeds (creating the
issue branch `< branch_prefix>-<issue_number>` and opening a pull request), a
second invocation with the same issue number fails at the issue-branch
creation step - GitHub rejects the duplicate reference name - and terminates
without opening a pull request: the world is left completely unchanged by
the second run. -/
theorem c3_second_invocation_duplicate_branch (u : String) (n : Nat) (bp bb : String)
    (w : World) (up fr : Repo) (pr : PullRequest)
    (hup : alookup u w.repos = some up)
    (hfk : alookup (w.userLogin ++ "/" ++ up.name) w.repos = some fr)
    (hsucc : (fork_and_create_pr u n bp bb w).2.ret =
      OrchReturn.ret (OrchResult.prCreated pr)) :
    (fork_and_create_pr u n bp bb (fork_and_create_pr u n bp bb w).1).1 =
        (fork_and_create_pr u n bp bb w).1 ∧
    (fork_and_create_pr u n bp bb (fork_and_create_pr u n bp bb w).1).2.ret =
        OrchReturn.ret OrchResult.branchCreateError := by
  obtain ⟨hL, hU, hF⟩ := fork_success_facts u n bp bb w up fr pr hup hfk hsucc
  obtain ⟨u₁, hu₁, hname⟩ := Option.map_eq_some'.mp hU
  obtain ⟨f₁, hf₁, hpair⟩ := Option.map_eq_some'.mp hF
  have hB : (alookup bb f₁.branches).isSome = true := by
    have := congrArg Prod.fst hpair; simpa using this
  have hN : (alookup (bp ++ "-" ++ toString n) f₁.branches).isSome = true := by
    have := congrArg Prod.snd hpair; simpa using this
  obtain ⟨sB, hsB⟩ := Option.isSome_iff_exists.mp hB
  obtain ⟨sN, hsN⟩ := Option.isSome_iff_exists.mp hN
  have hfk₁ : alookup ((fork_and_create_pr u n bp bb w).1.userLogin ++ "/" ++ u₁.name)
      (fork_and_create_pr u n bp bb w).1.repos = some f₁ := by
    rw [hL, hname]; exact hf₁
  exact branch_exists_fails u n bp bb (fork_and_create_pr u n bp bb w).1 u₁ f₁ sB sN
    hu₁ hfk₁ hsB hsN

/-- Witness for C3 at a concrete world where the first run succeeds. -/
theorem c3_witness :
    (fork_and_create_pr "acme/widgets" 7 "issue-fix" "main"
        (fork_and_create_pr "acme/widgets" 7 "issue-fix" "main" wExample).1).1 =
      (fork_and_create_pr "acme/widgets" 7 "issue-fix" "main" wExample).1 ∧
    (fork_and_create_pr "acme/widgets" 7 "issue-fix" "main"
        (fork_and_create_pr "acme/widgets" 7 "issue-fix" "main" wExample).1).2.ret =
      OrchReturn.ret OrchResult.branchCreateError :=
  c3_second_invocation_duplicate_branch "acme/widgets" 7 "issue-fix" "main" wExample
    upstreamWidgets upstreamWidgets
    (prOf (fork_and_create_pr "acme/widgets" 7 "issue-fix" "main" wExample).2.ret)
    rfl rfl (by decide)

/-- C4 (evidence for the code bug): at a world where the upstream repository
is inaccessible, the Orchestrator invocation fails with the upstream access
error and logs it - yet the Poll Driver still appends the issue URL to the
Processed-Set, because solver.py swallows the failure inside
`fork_and_create_pr` (print and `return`, the `sys.exit(1)` commented out)
and the driver appends after any non-raising return (line 229, despite its
own comment saying the append happens after successful PR creation). -/
theorem c4_failed_invocation_still_appended :
    (fork_and_create_pr "acme/widgets" 7 "issue-fix" "main" wNoUpstream).2.ret =
        OrchReturn.ret OrchResult.upstreamAccessError ∧
    (solve_bounty_cycle [] wNoUpstream
        [⟨some "https://github.com/acme/widgets/issues/7"⟩]).2.appended =
      ["https://github.com/acme/widgets/issues/7"] ∧
    (solve_bounty_cycle [] wNoUpstream
        [⟨some "https://github.com/acme/widgets/issues/7"⟩]).2.logs =
      ["Processing issue: acme/widgets#7",
       "Error: Could not access upstream repository acme/widgets"] := by
  decide

/-- C5: every pull-request body produced by a successful Orchestrator run
contains the literal marker token verbatim (the body decomposes around
`markerToken`). -/
theorem c5_pr_body_contains_marker (u : String) (n : Nat) (bp bb : String) (w : World)
    (pr : PullRequest)
    (hret : (fork_and_create_pr u n bp bb w).2.ret =
      OrchReturn.ret (OrchResult.prCreated pr)) :
    ∃ p s, pr.body = p ++ markerToken ++ s := by
  cases hup : alookup u w.repos with
  | none => simp [fork_and_create_pr, hup] at hret
  | some up =>
    rw [fork_and_create_pr, hup] at hret
    simp only [] at hret
    cases hfk : alookup (w.userLogin ++ "/" ++ up.name) w.repos with
    | some fr =>
      rw [hfk] at hret
      exact afterFork_marker u n bp bb w up _ fr _ pr hret
    | none =>
      rw [hfk] at hret
      cases hprov : w.forkProvision with
      | none => rw [hprov] at hret; simp at hret
      | some fr =>
        rw [hprov] at hret
        exact afterFork_marker u n bp bb _ up _ fr _ pr hret

/-- Witness for C5 at a concrete successful run. -/
theorem c5_witness :
    ∃ p s, (prOf (fork_and_create_pr "acme/widgets" 7 "issue-fix" "main" wExample).2.ret).body
        = p ++ markerToken ++ s :=
  c5_pr_body_contains_marker "acme/widgets" 7 "issue-fix" "main" wExample
    (prOf (fork_and_create_pr "acme/widgets" 7 "issue-fix" "main" wExample).2.ret)
    (by decide)

/-- C6: a row whose issue link does not match the pattern
`https://github.com/<owner>/<repo>/issues/<digits>` is logged
(`Invalid issue link format: <link>`) and skipped: the remaining rows are
processed exactly as if the malformed row were absent - no Orchestrator
invocation and no Processed-Set append happens for it. -/
theorem c6_malformed_link_logged_and_skipped (processed : List String) (w : World)
    (row : Row) (rest : List Row) (l : String)
    (hlink : row.issue_link = some l) (hne : l ≠ "")
    (hmem : l ∉ processed) (hparse : parseIssueLink l = none) :
    (solve_bounty_cycle processed w (row :: rest)).1 =
        (solve_bounty_cycle processed w rest).1 ∧
    (solve_bounty_cycle processed w (row :: rest)).2.invocations =
        (solve_bounty_cycle processed w rest).2.invocations ∧
    (solve_bounty_cycle processed w (row :: rest)).2.appended =
        (solve_bounty_cycle processed w rest).2.appended ∧
    (solve_bounty_cycle processed w (row :: rest)).2.logs =
        ("Invalid issue link format: " ++ l) ::
          (solve_bounty_cycle processed w rest).2.logs :=
  malformed_link_skipped processed w row rest l hlink hne hmem hparse

/-- Witness for C6 at a concrete malformed row followed by a valid row. -/
theorem c6_witness :
    (solve_bounty_cycle [] wExample [⟨some "not a url"⟩,
        ⟨some "https://github.com/acme/widgets/issues/7"⟩]).1 =
      (solve_bounty_cycle [] wExample
        [⟨some "https://github.com/acme/widgets/issues/7"⟩]).1 ∧
    (solve_bounty_cycle [] wExample [⟨some "not a url"⟩,
        ⟨some "https://github.com/acme/widgets/issues/7"⟩]).2.invocations =
      (solve_bounty_cycle [] wExample
        [⟨some "https://github.com/acme/widgets/issues/7"⟩]).2.invocations ∧
    (solve_bounty_cycle [] wExample [⟨some "not a url"⟩,
        ⟨some "https://github.com/acme/widgets/issues/7"⟩]).2.appended =
      (solve_bounty_cycle [] wExample
        [⟨some "https://github.com/acme/widgets/issues/7"⟩]).2.appended ∧
    (solve_bounty_cycle [] wExample [⟨some "not a url"⟩,
        ⟨some "https://github.com/acme/widgets/issues/7"⟩]).2.logs =
      ("Invalid issue link format: " ++ "not a url") ::
        (solve_bounty_cycle [] wExample
          [⟨some "https://github.com/acme/widgets/issues/7"⟩]).2.logs :=
  c6_malformed_link_logged_and_skipped [] wExample ⟨some "not a url"⟩
    [⟨some "https://github.com/acme/widgets/issues/7"⟩] "not a url"
    rfl (by decide) (by decide) (by decide)

/-- C7: every commit issued by the commit loop carries the message
`Fix issue #<n>` and targets the issue branch; for each selected file the
loop emits exactly one log line - the error line when that file's
`update_file` fails, the success line otherwise - so a per-file failure is
logged and the loop continues; and whenever the run reaches the commit step
(all earlier steps resolved), the pull-request step is still attempted - the
run ends in either a created pull request or a `create_pull` failure -
regardless of the update-failure set and of whether the change set is empty. -/
theorem c7_commit_messages_and_pr_attempt :
    (∀ (n : Nat) (br : String) (fails : List String) (cs : List (FileNode × String)),
      (∀ op ∈ (commitChanges n br fails cs).1,
        op.message = "Fix issue #" ++ toString n ∧ op.branch = br) ∧
      (commitChanges n br fails cs).2 = cs.map (fun c =>
        if c.1.path ∈ fails then "Error updating " ++ c.1.path
        else "Updated " ++ c.1.path)) ∧
    (∀ (u : String) (n : Nat) (bp bb : String) (w : World) (up fr : Repo) (sha : Nat)
        (t b : String),
      alookup u w.repos = some up →
      alookup (w.userLogin ++ "/" ++ up.name) w.repos = some fr →
      alookup bb fr.branches = some sha →
      alookup (bp ++ "-" ++ toString n) fr.branches = none →
      alookup n up.issues = some (t, b) →
      w.contentsError = false →
      prAttempted (fork_and_create_pr u n bp bb w).2.ret = true) := by
  constructor
  · exact fun n br fails cs => commitChanges_spec n br fails cs
  · intro u n bp bb w up fr sha t b hup hfk hbb hnb hiss hce
    rcases pr_step_attempted u n bp bb w up fr sha t b hup hfk hbb hnb hiss hce with
      h | ⟨pr, h⟩
    · simp [prAttempted, h]
    · simp [prAttempted, h]

/-- Witness for C7: a failing `update_file` on `README.md` is logged as an
error, and at the corresponding world the run still reaches the pull-request
step. -/
theorem c7_witness :
    (commitChanges 7 "issue-fix-7" ["README.md"]
        [(⟨"README.md", some "# Widgets", "sha1"⟩, "# Widgets\nhello")]).2 =
      ["Error updating README.md"] ∧
    prAttempted (fork_and_create_pr "acme/widgets" 7 "issue-fix" "main" wUpdateFail).2.ret
      = true :=
  ⟨Eq.trans ((c7_commit_messages_and_pr_attempt.1 7 "issue-fix-7" ["README.md"]
      [(⟨"README.md", some "# Widgets", "sha1"⟩, "# Widgets\nhello")]).2) (by decide),
   c7_commit_messages_and_pr_attempt.2 "acme/widgets" 7 "issue-fix" "main" wUpdateFail
     upstreamWidgets upstreamWidgets 100 "Bug in frobnicator" "It frobs wrong"
     rfl rfl rfl (by decide) rfl rfl⟩

/-- C8 (modelled from the spec, see `single_shot_exit_code`): in single-shot
command-line mode the process exits with status 1 when the run ends in an
unrecoverable failure - upstream repository inaccessible, issue-branch
creation failure, or pull-request creation failure - and with status 0 when
the run opens its pull request. -/
theorem c8_single_shot_exit_status (u : String) (n : Nat) (w : World) :
    ((fork_and_create_pr u n "issue-fix" "main" w).2.ret =
        OrchReturn.ret OrchResult.upstreamAccessError →
      single_shot_exit_code u n w = 1) ∧
    ((fork_and_create_pr u n "issue-fix" "main" w).2.ret =
        OrchReturn.ret OrchResult.branchCreateError →
      single_shot_exit_code u n w = 1) ∧
    ((fork_and_create_pr u n "issue-fix" "main" w).2.ret =
        OrchReturn.ret OrchResult.prCreateError →
      single_shot_exit_code u n w = 1) ∧
    (∀ pr, (fork_and_create_pr u n "issue-fix" "main" w).2.ret =
        OrchReturn.ret (OrchResult.prCreated pr) →
      single_shot_exit_code u n w = 0) := by
  refine ⟨?_, ?_, ?_, ?_⟩ <;>
    first
      | (intro h; simp [single_shot_exit_code, h])
      | (intro pr h; simp [single_shot_exit_code, h])

/-- Witness for C8: exit status 1 at an inaccessible upstream, exit status 0
at a fully successful run. -/
theorem c8_witness :
    single_shot_exit_code "acme/widgets" 7 wNoUpstream = 1 ∧
    single_shot_exit_code "acme/widgets" 7 wExample = 0 :=
  ⟨(c8_single_shot_exit_status "acme/widgets" 7 wNoUpstream).1 (by decide),
   (c8_single_shot_exit_status "acme/widgets" 7 wExample).2.2.2
     (prOf (fork_and_create_pr "acme/widgets" 7 "issue-fix" "main" wExample).2.ret)
     (by decide)⟩

/-- C9 counterexample: the claim says every row skipped due to an error
condition - explicitly including a row whose `issue_link` field is missing
or empty - produces at least one log line.  In solver.py (lines 202-204)
such rows are skipped silently: a cycle over a row with an empty link and a
row with a missing link emits no log line at all. -/
theorem c9_counterexample :
    (solve_bounty_cycle [] wExample [⟨some ""⟩, ⟨none⟩]).2.logs = [] ∧
    (solve_bounty_cycle [] wExample [⟨some ""⟩, ⟨none⟩]).2.invocations = [] ∧
    (solve_bounty_cycle [] wExample [⟨some ""⟩, ⟨none⟩]).2.appended = [] := by
  decide

/-- C9 (amended): apart from the two silent paths - a row with a missing or
empty `issue_link` is skipped without logging, and a failing README decode
silently falls back to the replacement content - no failure goes unlogged:
a malformed issue link is logged before the driver moves on; every
Orchestrator invocation, in particular every failing one, emits at least one
log line; and a row whose invocation raises an exception gets an
`Error processing issue` log line from the driver. -/
theorem c9_no_silent_failures_outside_silent_paths :
    (∀ (processed : List String) (w : World) (row : Row) (rest : List Row) (l : String),
      row.issue_link = some l → l ≠ "" → l ∉ processed → parseIssueLink l = none →
      (solve_bounty_cycle processed w (row :: rest)).2.logs =
        ("Invalid issue link format: " ++ l) ::
          (solve_bounty_cycle processed w rest).2.logs) ∧
    (∀ (u : String) (n : Nat) (bp bb : String) (w : World),
      (fork_and_create_pr u n bp bb w).2.logs ≠ []) ∧
    (∀ (processed : List String) (w : World) (link rn : String) (n : Nat) (m : String),
      link ≠ "" → link ∉ processed → parseIssueLink link = some (rn, n) →
      (fork_and_create_pr rn n "issue-fix" "main" w).2.ret = OrchReturn.exn m →
      ("Error processing issue " ++ link ++ ": " ++ m) ∈
        (solve_bounty_cycle processed w [⟨some link⟩]).2.logs) :=
  ⟨fun processed w row rest l h₁ h₂ h₃ h₄ =>
      (malformed_link_skipped processed w row rest l h₁ h₂ h₃ h₄).2.2.2,
   fun u n bp bb w => orch_always_logs u n bp bb w,
   fun processed w link rn n m h₁ h₂ h₃ h₄ =>
      (exn_row_logged processed w link rn n m h₁ h₂ h₃ h₄).1⟩

/-- Witness for C9 (amended) at concrete rows and worlds: a malformed link is
logged, a failing invocation logs, and an invocation that raises (fork not
visible after creation) yields the driver error line. -/
theorem c9_witness :
    (solve_bounty_cycle [] wExample [⟨some "not-a-link"⟩]).2.logs =
      ("Invalid issue link format: " ++ "not-a-link") ::
        (solve_bounty_cycle [] wExample ([] : List Row)).2.logs ∧
    (fork_and_create_pr "acme/widgets" 7 "issue-fix" "main" wNoUpstream).2.logs ≠ [] ∧
    ("Error processing issue " ++ "https://github.com/acme/widgets/issues/7" ++ ": " ++
        "fork not visible after creation") ∈
      (solve_bounty_cycle [] wForkAbsent
        [⟨some "https://github.com/acme/widgets/issues/7"⟩]).2.logs :=
  ⟨(c9_no_silent_failures_outside_silent_paths.1 [] wExample ⟨some "not-a-link"⟩ []
      "not-a-link" rfl (by decide) (by decide) (by decide)),
   c9_no_silent_failures_outside_silent_paths.2.1 "acme/widgets" 7 "issue-fix" "main"
     wNoUpstream,
   c9_no_silent_failures_outside_silent_paths.2.2 [] wForkAbsent
     "https://github.com/acme/widgets/issues/7" "acme/widgets" 7
     "fork not visible after creation" (by decide) (by decide) (by decide) (by decide)⟩

/-- C10: the Poll Driver's issue-link check is a prefix match.  Every link
that begins with text matching
`https://github.com/<owner>/<repo>/issues/<digits>` is accepted even when
arbitrary characters follow the digit run, the extracted pair is
`<owner>/<repo>` together with the decimal value of the first digit run
after `issues/`, and the cycle invokes the Orchestrator on exactly that
pair for such a row. -/
theorem c10_link_check_is_prefix_match (o r d rest : String)
    (ho : o ≠ "") (hoc : ∀ c ∈ o.data, c ≠ '/')
    (hr : r ≠ "") (hrc : ∀ c ∈ r.data, c ≠ '/')
    (hd : d ≠ "") (hdc : ∀ c ∈ d.data, c.isDigit = true)
    (hrest : ∀ c, rest.data.head? = some c → c.isDigit = false) :
    parseIssueLink ("https://github.com/" ++ o ++ "/" ++ r ++ "/issues/" ++ d ++ rest) =
      some (o ++ "/" ++ r, digitsToNat d.data) ∧
    ∀ (processed : List String) (w : World),
      ("https://github.com/" ++ o ++ "/" ++ r ++ "/issues/" ++ d ++ rest) ∉ processed →
      (solve_bounty_cycle processed w
          [⟨some ("https://github.com/" ++ o ++ "/" ++ r ++ "/issues/" ++ d ++ rest)⟩]
        ).2.invocations =
        [("https://github.com/" ++ o ++ "/" ++ r ++ "/issues/" ++ d ++ rest,
          o ++ "/" ++ r, digitsToNat d.data)] := by
  have hparse := parseIssueLink_prefix o r d rest ho hoc hr hrc hd hdc hrest
  refine ⟨hparse, ?_⟩
  intro processed w hmem
  have hne : ("https://github.com/" ++ o ++ "/" ++ r ++ "/issues/" ++ d ++ rest) ≠ "" := by
    intro h
    rw [h] at hparse
    simp [parseIssueLink, parseIssueLinkChars, dropLit] at hparse
  exact cycle_single_valid_row processed w _ _ _ hne hmem hparse

/-- Witness for C10: a link with a trailing `/comments` segment after the
digit run is accepted and the cycle invokes the Orchestrator with the
extracted owner/repo and issue number. -/
theorem c10_witness :
    parseIssueLink ("https://github.com/" ++ "acme" ++ "/" ++ "widgets" ++ "/issues/" ++
        "12" ++ "/comments") =
      some ("acme" ++ "/" ++ "widgets", digitsToNat "12".data) ∧
    (solve_bounty_cycle [] wExample
        [⟨some ("https://github.com/" ++ "acme" ++ "/" ++ "widgets" ++ "/issues/" ++
          "12" ++ "/comments")⟩]).2.invocations =
      [("https://github.com/" ++ "acme" ++ "/" ++ "widgets" ++ "/issues/" ++
          "12" ++ "/comments",
        "acme" ++ "/" ++ "widgets", digitsToNat "12".data)] :=
  ⟨(c10_link_check_is_prefix_match "acme" "widgets" "12" "/comments"
      (by decide) (by decide) (by decide) (by decide) (by decide) (by decide)
      (by decide)).1,
   (c10_link_check_is_prefix_match "acme" "widgets" "12" "/comments"
      (by decide) (by decide) (by decide) (by decide) (by decide) (by decide)
      (by decide)).2 [] wExample (by decide)⟩
